import Mathlib

/-!
Verification of the datar verb library's core semantics: a shallow embedding
of the middleware objects (`Across`, `CAcross`, `IfCross`, `Inverted`) from
`src/datar/core/middlewares.py`, the verbs `arrange`, `mutate`, `group_by`,
`ungroup`, `filter` from `src/datar/dplyr/verbs.py`, and the environment
lookup `get_verb_ast_fallback` from `src/datar/core/verb_env.py`.

Tables are modelled as ordered association lists of named integer columns.
Helper utilities that live in `datar/core/utils.py` and `datar/core/names.py`
(absent from the source tree given) are modelled from the spec and marked so
in their doc comments.
-/

namespace Datar

/-- A column of values: pandas Series modelled over integers. -/
abbrev Col := List Int

/-- A DataFrame: ordered named columns. -/
abbrev Table := List (String × Col)

/-- The ordered list of column names of a table (`df.columns`). -/
def colNames (t : Table) : List String := t.map Prod.fst

/-- Look a column up by name (`df[name]`); empty when absent. -/
def getCol (t : Table) (name : String) : Col :=
  match t.find? (fun p => p.1 = name) with
  | some p => p.2
  | none => []

/-- Whether a table has a column of the given name. -/
def hasCol (t : Table) (name : String) : Bool := (colNames t).contains name

/-- Modelled from the spec: `df_assign_item` (in `datar/core/utils.py`, not in
the given sources) assigns a column by name, "appended/overwritten by name":
overwritten in place when the name exists, appended at the right otherwise. -/
def df_assign_item (t : Table) (name : String) (value : Col) : Table :=
  if hasCol t name then t.map (fun p => if p.1 = name then (p.1, value) else p)
  else t ++ [(name, value)]

/-- Modelled from the spec: `to_df` (in `datar/core/utils.py`, not in the given
sources) builds a single-column frame from a value and a name. -/
def to_df (value : Col) (name : String) : Table := [(name, value)]

/-- Modelled from the spec: `list_diff` (in `datar/core/utils.py`, not in the
given sources) keeps the elements of the first list that are not in the
second, preserving order; used for `Inverted.complements` set difference. -/
def list_diff (a b : List String) : List String :=
  a.filter (fun x => !(b.contains x))

/-- Modelled from the spec: `select_columns` (in `datar/core/utils.py`, not in
the given sources) resolves literal column-name selectors against the table's
columns, failing with a column-not-found error on an unknown name. -/
def select_columns (allCols : List String) (sels : List String) : Except String (List String) :=
  sels.mapM (fun s =>
    if allCols.contains s then Except.ok s
    else Except.error ("Column " ++ s ++ " not found"))

/-! ## verb_env: ast-fallback policy lookup (`src/datar/core/verb_env.py`) -/

/-- An environment: variable name to value, `none` when the variable is unset. -/
abbrev Env := String → Option String

/-- Python `str.rstrip("_")`: drop every trailing underscore. -/
def rstripUnderscores (s : String) : String :=
  ⟨(s.data.reverse.dropWhile (fun c => c = '_')).reverse⟩

/-- Python `str.upper()` over the characters of a string. -/
def upperStr (s : String) : String := ⟨s.data.map Char.toUpper⟩

/-- `verb.rstrip("_").upper()` wrapped into the per-verb environment key
`DATAR_<VERB>_AST_FALLBACK` (verb_env.py lines 25-29). -/
def verbKey (verb : String) : String :=
  "DATAR_" ++ upperStr (rstripUnderscores verb) ++ "_AST_FALLBACK"

/-- The global environment key (verb_env.py line 35). -/
def globalKey : String := "DATAR_VERB_AST_FALLBACK"

/-- The global half of the lookup (verb_env.py lines 35-40): the global value
when it is truthy (non-empty), otherwise `none`. -/
def global_ast_fallback (env : Env) : Option String :=
  match env globalKey with
  | some g => if g ≠ "" then some g else none
  | none => none

/-- `get_verb_ast_fallback` (verb_env.py lines 7-40): the per-verb variable
when truthy, else the global variable when truthy, else `none`. -/
def get_verb_ast_fallback (env : Env) (verb : String) : Option String :=
  match env (verbKey verb) with
  | some v => if v ≠ "" then some v else global_ast_fallback env
  | none => global_ast_fallback env

/-! ## Across family (`src/datar/core/middlewares.py`) -/

/-- One normalized function record of `Across.fns` (middlewares.py lines
150-162): the function plus the rendered value of the `_fn` naming
placeholder — the list index as a string for list input, the key for dict
input, absent for a single plain callable. -/
structure FnInfo where
  fn : Col → Col
  label : Option String

/-- The accepted shapes of the `fns` argument of `Across.__init__`
(middlewares.py lines 150-162): `None`, a single callable, a list of
callables, or a name-to-callable mapping. -/
inductive FnsArg where
  | noFns
  | single (f : Col → Col)
  | list (fs : List (Col → Col))
  | dict (fs : List (String × (Col → Col)))

/-- Decimal digit characters of a natural number, fuel-based so that it
computes by reduction. -/
def natToStrAux : Nat → Nat → List Char
  | 0, _ => []
  | fuel+1, n =>
    if n < 10 then [Char.ofNat (48 + n)]
    else natToStrAux fuel (n / 10) ++ [Char.ofNat (48 + n % 10)]

/-- Decimal rendering of a natural number, as Python string formatting
renders the `_fn` function index. -/
def natToStr (n : Nat) : String := ⟨natToStrAux (n+1) n⟩

/-- Normalization of `fns` into `fns_list` (middlewares.py lines 150-162):
a callable gives one unlabelled record; a list gives records labelled by
position (the `_fn` key holds the 0-based index); a dict gives records
labelled by key; `None` gives the empty list. -/
def normalizeFns : FnsArg → List FnInfo
  | .noFns => []
  | .single f => [⟨f, none⟩]
  | .list fs => fs.enum.map (fun p => ⟨p.2, some (natToStr p.1)⟩)
  | .dict fs => fs.map (fun p => ⟨p.2, some p.1⟩)

/-- The output-column name for one column and one function record with the
default template (middlewares.py lines 222-229): `{_col}_{_fn}` when the
record carries a `_fn` placeholder, `{_col}` otherwise. -/
def acrossName (info : FnInfo) (col : String) : String :=
  match info.label with
  | some l => col ++ "_" ++ l
  | none => col

/-- `Across.evaluate` in value (non-select) context with the default naming
template (middlewares.py lines 213-248): for each column (outer loop) and
each function record (inner loop), apply the function to the column's values
and assemble the result frame left-to-right, the first computed value
initializing the frame (`to_df`) and the rest assigned by name
(`df_assign_item`); an empty `fns` list is replaced by the identity
function. -/
def acrossEvaluateVal (cols : List String) (fns : List FnInfo) (data : Table) : Table :=
  let fns' := if fns.isEmpty then [⟨fun x => x, none⟩] else fns
  cols.foldl (fun ret col =>
    fns'.foldl (fun ret info =>
      df_assign_item ret (acrossName info col) (info.fn (getCol data col))) ret) []

/-- `Across.__init__` column resolution followed by value-context
`Across.evaluate` (middlewares.py lines 131-174 and 213-248): the `cols`
selectors are resolved against the data's columns, then evaluation runs with
the default naming template. -/
def across_apply (data : Table) (cols : List String) (fns : FnsArg) : Except String Table := do
  let c ← select_columns (colNames data) cols
  pure (acrossEvaluateVal c (normalizeFns fns) data)

/-- The construction-time errors of the single-function Across variants
(middlewares.py: `CAcross.__init__` lines 267-276, `IfCross.__init__` lines
324-330). -/
inductive MWError where
  | noFunction
  | tooManyFunctions
deriving DecidableEq

/-- `CAcross.__init__` function-count checks (middlewares.py lines 252-278):
after normalizing `fns`, an empty list raises a no-function error, more than
one function raises a too-many error, and exactly one is accepted and stored
as `self.fn`. -/
def cacross_init (fns : FnsArg) : Except MWError FnInfo :=
  match normalizeFns fns with
  | [] => .error .noFunction
  | [f] => .ok f
  | _ => .error .tooManyFunctions

/-- `IfCross.__init__` function-count checks (middlewares.py lines 308-332),
shared by `IfAny` and `IfAll`: identical to `CAcross` — zero functions raise
a no-function error, more than one a too-many error, exactly one is stored. -/
def ifcross_init (fns : FnsArg) : Except MWError FnInfo :=
  match normalizeFns fns with
  | [] => .error .noFunction
  | [f] => .ok f
  | _ => .error .tooManyFunctions

/-! ## Inverted selector (`src/datar/core/middlewares.py` lines 45-95) -/

/-- The state of an `Inverted` instance whose `elems` have been flattened to
column names (the `Collection` branch of `Inverted.__init__`, middlewares.py
lines 62-66): the columns of the referenced table (`self.data.columns`, a
live reference), the wrapped elements, whether the context is the
slice-preserving `ContextSelectSlice`, and the `_complements` cache
initialized to `None` (line 75). -/
structure InvertedState where
  dataCols : List String
  elems : List String
  selectSlice : Bool
  complementsCache : Option (List String)

/-- `Inverted.__init__` for flattened name elements (middlewares.py lines
48-75): stores the data reference, elements and context, with the
`_complements` cache unset. -/
def inverted_init (dataCols : List String) (elems : List String) (selectSlice : Bool) : InvertedState :=
  ⟨dataCols, elems, selectSlice, none⟩

/-- Access of the `Inverted.complements` property (middlewares.py lines
85-92): in the slice-preserving context the object itself is returned
(modelled as `none`, state unchanged); otherwise the set difference
`list_diff(data.columns, elems)` is computed on first access, cached in
`_complements`, and the cached value is returned on every later access. -/
def complementsAccess (s : InvertedState) : Option (List String) × InvertedState :=
  if s.selectSlice then (none, s)
  else match s.complementsCache with
    | some c => (some c, s)
    | none =>
      let c := list_diff s.dataCols s.elems
      (some c, { s with complementsCache := some c })

/-- Mutation of the underlying table's columns after construction: the
`Inverted` holds a live reference to the table, so renaming/adding/dropping
columns of the table changes what `self.data.columns` would report. -/
def setDataCols (s : InvertedState) (cols : List String) : InvertedState :=
  { s with dataCols := cols }

/-! ## Grouping envelope and verbs (`src/datar/dplyr/verbs.py`) -/

/-- Number of rows of a table: the length of its first column (tables are
rectangular). -/
def nrows (t : Table) : Nat :=
  match t with
  | [] => 0
  | p :: _ => p.2.length

/-- The tuple of grouping-key values of row `i` under key columns `names`. -/
def rowKeyAt (t : Table) (names : List String) (i : Nat) : List Int :=
  names.map (fun n => (getCol t n).getD i 0)

/-- A pandas grouper: the ordered grouping-key column names together with the
distinct key tuples (the group levels). -/
structure Grouper where
  names : List String
  keys : List (List Int)
deriving DecidableEq

/-- A `DataFrameGroupBy`: the underlying table (`.obj`) plus its grouper. -/
structure GroupedTable where
  obj : Table
  grouper : Grouper
deriving DecidableEq

/-- The grouper computed from the data: the distinct key tuples actually
present among the rows, in order of first appearance. -/
def computeGrouper (t : Table) (names : List String) : Grouper :=
  ⟨names, ((List.range (nrows t)).map (rowKeyAt t names)).dedup⟩

/-- Modelled from the spec: `group_df` called with key names (in
`datar/core/utils.py`, not in the given sources) wraps a table in a grouping
envelope whose grouping is recomputed from the data's distinct key tuples. -/
def group_df_names (data : Table) (names : List String) : GroupedTable :=
  ⟨data, computeGrouper data names⟩

/-- Modelled from the spec: `group_df` called with an existing grouper (in
`datar/core/utils.py`, not in the given sources) reuses that grouper
unchanged — its group levels are retained as is, even levels with no
surviving rows. -/
def group_df_grouper (data : Table) (g : Grouper) : GroupedTable :=
  ⟨data, g⟩

/-- The row indices of the group with key tuple `key`. -/
def groupRowIdxs (t : Table) (names : List String) (key : List Int) : List Nat :=
  (List.range (nrows t)).filter (fun i => rowKeyAt t names i = key)

/-- Select the rows at the given indices, in the given order (`df.iloc`). -/
def selectRows (t : Table) (idxs : List Nat) : Table :=
  t.map (fun p => (p.1, idxs.map (fun i => p.2.getD i 0)))

/-- `group_by` on a plain table with no keyword mutations (verbs.py lines
361-387): resolves the column selectors against the table's columns and
wraps the table unchanged in a grouping envelope via `group_df`. -/
def group_by (data : Table) (columns : List String) : Except String GroupedTable :=
  match select_columns (colNames data) columns with
  | .error e => .error e
  | .ok cols => .ok (group_df_names data cols)

/-- `ungroup` (verbs.py lines 417-427): returns `_data.obj`, the underlying
table of the grouping envelope, unchanged. -/
def ungroup (g : GroupedTable) : Table := g.obj

/-- `filter` on a grouped table (verbs.py lines 696-711): the condition is
applied per group (modelled as a predicate on the original row index,
evaluated group by group in grouper order and the surviving rows
concatenated — `groupby_apply`, in `datar/core/utils.py`, not in the given
sources, modelled from the spec's per-group application); with
`_preserve=False` the result is regrouped from the surviving rows by key
names, with `_preserve=True` the original grouper object is reused. -/
def filter_grouped (g : GroupedTable) (cond : Nat → Bool) (preserve : Bool) : GroupedTable :=
  let kept := (g.grouper.keys.map
    (fun k => (groupRowIdxs g.obj g.grouper.names k).filter cond)).flatten
  let ret := selectRows g.obj kept
  if preserve then group_df_grouper ret g.grouper
  else group_df_names ret g.grouper.names

/-! ## arrange (`src/datar/dplyr/verbs.py` lines 29-89) -/

/-- Modelled from the spec: `repair_names(..., repair="check_unique")` (in
`datar/core/names.py`, not in the given sources) fails with a
non-unique-name error when the given names are not unique. -/
def check_unique (names : List String) : Except String Unit :=
  if names.dedup.length = names.length then .ok ()
  else .error "Names must be unique"

/-- One resolved sort argument of `arrange`: a named series of values, marked
descending when it is a `DescSeries` (verbs.py lines 77-81). -/
structure SortSeries where
  name : String
  values : Col
  desc : Bool

/-- Lexicographic comparison of sort-key tuples. -/
def lexLe : List Int → List Int → Bool
  | [], _ => true
  | _ :: _, [] => false
  | a :: as, b :: bs => if a < b then true else if b < a then false else lexLe as bs

/-- Insert an index into a list of indices sorted by `lexLe` on their keys. -/
def insertIdx (key : Nat → List Int) (i : Nat) : List Nat → List Nat
  | [] => [i]
  | j :: rest =>
    if lexLe (key i) (key j) then i :: j :: rest else j :: insertIdx key i rest

/-- Sort row indices by their sort-key tuples. -/
def sortIdxs (key : Nat → List Int) (idxs : List Nat) : List Nat :=
  idxs.foldr (insertIdx key) []

/-- `arrange` on a plain table over series arguments (verbs.py lines 29-89):
with no sort arguments the input table is returned at once (line 53-54);
otherwise column-name uniqueness is checked first and a duplicate-name error
raised (lines 56-62); then an auxiliary sorting frame is built from the
series by name (descending ones negated via the tracked `desc_cols` name
set), rows are sorted by all its columns, and the original table is
reindexed by the sorted row order (lines 64-89). -/
def arrange (t : Table) (series : List SortSeries) : Except String Table :=
  if series.isEmpty then .ok t
  else
    match check_unique (colNames t) with
    | .error _ => .error "Cannot arrange a data frame with duplicate names."
    | .ok _ =>
      let sortCols : Table :=
        series.foldl (fun acc s => df_assign_item acc s.name s.values) []
      let descCols := (series.filter (fun s => s.desc)).map (fun s => s.name)
      let key (i : Nat) : List Int :=
        sortCols.map (fun p =>
          if descCols.contains p.1 then -(p.2.getD i 0) else p.2.getD i 0)
      .ok (selectRows t (sortIdxs key (List.range (nrows t))))

/-! ## mutate with `_keep='none'` (`src/datar/dplyr/verbs.py` lines 107-223) -/

/-- A value assigned by a `mutate` keyword argument: a scalar (recycled to
the table length), a vector, or Python `None` (meaning drop the column). -/
inductive MValue where
  | scalar (v : Int)
  | vec (vs : Col)
  | null

/-- Python dict `update` on an insertion-ordered mapping: existing keys are
overwritten in place, new keys appended in order. -/
def dictUpdate (d new : List (String × MValue)) : List (String × MValue) :=
  new.foldl (fun acc kv =>
    if (acc.map Prod.fst).contains kv.1
    then acc.map (fun p => if p.1 = kv.1 then kv else p)
    else acc ++ [kv]) d

/-- The merged name-value mapping of a `mutate` call (verbs.py lines
160-169): the evaluated across results' columns in evaluation order, then
the keyword arguments, merged by dict update. -/
def mutateMerged (acrossResults : List Table) (kwargs : List (String × MValue)) :
    List (String × MValue) :=
  dictUpdate
    (acrossResults.foldl
      (fun acc tb => dictUpdate acc (tb.map (fun p => (p.1, MValue.vec p.2)))) [])
    kwargs

/-- `data.drop(columns=[key])` for a `None` value (verbs.py line 177): remove
the column, failing when it does not exist. -/
def dropCol (t : Table) (name : String) : Except String Table :=
  if hasCol t name then .ok (t.filter (fun p => p.1 ≠ name))
  else .error ("Column " ++ name ++ " not found")

/-- `data[outcols]` column selection (verbs.py line 216): the named columns
in the given order, failing when any is missing. -/
def selectCols (t : Table) (names : List String) : Except String Table :=
  names.mapM (fun n =>
    if hasCol t n then Except.ok (n, getCol t n)
    else Except.error ("Column " ++ n ++ " not found"))

/-- `mutate` with `_keep='none'` on a plain table, over already-evaluated
across results and keyword values (verbs.py lines 154-223, with `_before`
and `_after` unset): the across results and keyword arguments are merged
into one insertion-ordered mapping (lines 160-169); each entry is applied in
order — `None` drops the column, a scalar is recycled to the table length
(`align_value`, in `datar/core/utils.py`, not in the given sources, modelled
from the spec's scalar broadcast), a vector is assigned by name (lines
175-200); finally `_keep='none'` selects exactly `outcols = list(kwargs)`,
the merged names in declaration order (lines 202, 215-216). -/
def mutate_keep_none (data : Table) (acrossResults : List Table)
    (kwargs : List (String × MValue)) : Except String Table :=
  match (mutateMerged acrossResults kwargs).foldlM (fun (d : Table) kv =>
    match kv.2 with
    | MValue.null => dropCol d kv.1
    | MValue.scalar v => pure (df_assign_item d kv.1 (List.replicate (nrows d) v))
    | MValue.vec vs => pure (df_assign_item d kv.1 vs)) data with
  | .error e => .error e
  | .ok d => selectCols d ((mutateMerged acrossResults kwargs).map Prod.fst)

/-! ## Concrete instances used in scenario theorems and witnesses -/

/-- The scenario table `{x:[1,2], y:[3,4]}`. -/
def tblXY : Table := [("x", [1, 2]), ("y", [3, 4])]

/-- A table with duplicate column names. -/
def dupTbl : Table := [("a", [1]), ("a", [2])]

/-- An environment with the per-verb variable for `mutate` set to the empty
string and the global variable set to `piping`. -/
def envA : Env := fun k =>
  if k = "DATAR_MUTATE_AST_FALLBACK" then some ""
  else if k = "DATAR_VERB_AST_FALLBACK" then some "piping"
  else none

/-- An environment with the per-verb variable for `select` set to `normal`
and the global variable set to `piping`. -/
def envB : Env := fun k =>
  if k = "DATAR_SELECT_AST_FALLBACK" then some "normal"
  else if k = "DATAR_VERB_AST_FALLBACK" then some "piping"
  else none

/-- An environment with only the global variable set, to the empty string. -/
def envEmptyGlobal : Env := fun k =>
  if k = "DATAR_VERB_AST_FALLBACK" then some "" else none

/-- A table `{g:[1,2], x:[10,20]}` grouped by `g`: two singleton groups. -/
def gEx : GroupedTable := group_df_names [("g", [1, 2]), ("x", [10, 20])] ["g"]

/-- A row condition keeping only row 0. -/
def condEx : Nat → Bool := fun i => i = 0

/-! ## Theorems -/

/-- Helper: a successful `selectCols` returns exactly the requested names, in
order. -/
theorem selectCols_names (t : Table) : ∀ (names : List String) (r : Table),
    selectCols t names = Except.ok r → colNames r = names := by
  intro names
  induction names with
  | nil =>
    intro r h
    simp only [selectCols, List.mapM_nil] at h
    cases h
    rfl
  | cons n ns ih =>
    intro r h
    simp only [selectCols, List.mapM_cons] at h ih
    by_cases hc : hasCol t n = true
    · rw [hc] at h
      simp only [if_pos rfl] at h
      cases hm : ns.mapM (fun n => if hasCol t n = true
          then Except.ok (n, getCol t n)
          else Except.error ("Column " ++ n ++ " not found")) with
      | error e => rw [hm] at h; exact absurd h (by simp [Bind.bind, Except.bind])
      | ok bs =>
        rw [hm] at h
        simp [Bind.bind, Except.bind, pure, Except.pure] at h
        cases h
        have hbs := ih bs hm
        simp only [colNames] at hbs ⊢
        simp [hbs]
    · simp [hc] at h
      exact absurd h (by simp [Bind.bind, Except.bind])

/-- Helper: every group level of a grouper recomputed from the data has at
least one row. -/
theorem mem_computeGrouper_nonempty (t : Table) (names : List String) (key : List Int)
    (h : key ∈ (computeGrouper t names).keys) : groupRowIdxs t names key ≠ [] := by
  simp only [computeGrouper] at h
  rw [List.mem_dedup] at h
  obtain ⟨i, hi, hkey⟩ := List.mem_map.mp h
  have hmem : i ∈ groupRowIdxs t names key := by
    simp [groupRowIdxs, List.mem_filter, hi, hkey]
  exact List.ne_nil_of_mem hmem

/-- Claim C1, counterexample: `Across(cols=['x','y'], fns=[f1,f2])` evaluated
in value context on `{x:[1,2],y:[3,4]}` produces the columns in order
`x_0, x_1, y_0, y_1` — column-major, all functions for `x` before any for
`y` — not in the claimed order `x_0, y_0, x_1, y_1`. -/
theorem across_value_order_counterexample :
    (across_apply tblXY ["x", "y"] (FnsArg.list [fun c => c, fun c => c])).map colNames
      = Except.ok ["x_0", "x_1", "y_0", "y_1"]
  ∧ (["x_0", "x_1", "y_0", "y_1"] : List String) ≠ ["x_0", "y_0", "x_1", "y_1"] :=
  ⟨rfl, by decide⟩

/-- Claim C1, amended: for every pair of functions, `Across` over
`['x','y']` on `{x:[1,2],y:[3,4]}` in value context names its output columns
by the default template `{col}_{fn_index}` and assembles them column-major —
`x_0, x_1, y_0, y_1` — each column holding the corresponding function
applied to that column's values, the first computed result initializing the
frame. -/
theorem across_value_default_naming (f1 f2 : Col → Col) :
    across_apply tblXY ["x", "y"] (FnsArg.list [f1, f2])
      = Except.ok [("x_0", f1 [1, 2]), ("x_1", f2 [1, 2]),
                   ("y_0", f1 [3, 4]), ("y_1", f2 [3, 4])] :=
  rfl

/-- Claim C2: for every plain table and valid grouping columns,
`ungroup (group_by t cols)` with no keyword mutations returns a table equal
to `t` — same columns, same values, same row order. -/
theorem group_by_ungroup_roundtrip (t : Table) (cols : List String) (g : GroupedTable)
    (h : group_by t cols = Except.ok g) : ungroup g = t := by
  unfold group_by at h
  split at h
  · exact absurd h (by simp)
  · cases h
    rfl

/-- Witness for C2 at the table `{g:[1,1,2], x:[3,1,2]}` grouped by `g`. -/
theorem group_by_ungroup_roundtrip_witness :
    ungroup ⟨[("g", [1, 1, 2]), ("x", [3, 1, 2])], ⟨["g"], [[1], [2]]⟩⟩
      = [("g", [1, 1, 2]), ("x", [3, 1, 2])] :=
  group_by_ungroup_roundtrip [("g", [1, 1, 2]), ("x", [3, 1, 2])] ["g"] _ rfl

/-- Claim C3: for every table and every `mutate` call with `_keep='none'`
that returns, the returned table's column set is exactly the merged names
introduced by the call's across arguments and keyword expressions, in
declaration order. -/
theorem mutate_keep_none_cols (data : Table) (acrossResults : List Table)
    (kwargs : List (String × MValue)) (result : Table)
    (h : mutate_keep_none data acrossResults kwargs = Except.ok result) :
    colNames result = (mutateMerged acrossResults kwargs).map Prod.fst := by
  unfold mutate_keep_none at h
  split at h
  · exact absurd h (by simp)
  · exact selectCols_names _ _ _ h

/-- Witness for C3: on `{a:[1,2]}` with an across result column `b` and a
scalar keyword `c`, the result columns are `b, c`. -/
theorem mutate_keep_none_cols_witness :
    colNames [("b", [(10 : Int), 20]), ("c", [5, 5])]
      = (mutateMerged [[("b", [10, 20])]] [("c", MValue.scalar 5)]).map Prod.fst :=
  mutate_keep_none_cols [("a", [1, 2])] [[("b", [10, 20])]] [("c", MValue.scalar 5)] _ rfl

/-- Claim C4: `filter` on a grouped table with `_preserve=False` never
returns a group level with zero rows (grouping is recomputed from the
surviving rows), while with `_preserve=True` an empty group may be retained
(shown on `{g:[1,2], x:[10,20]}` grouped by `g` with a condition keeping
only row 0: level `g=2` survives with no rows). -/
theorem filter_preserve_groups :
    (∀ (g : GroupedTable) (cond : Nat → Bool) (key : List Int),
      key ∈ (filter_grouped g cond false).grouper.keys →
      groupRowIdxs (filter_grouped g cond false).obj
        (filter_grouped g cond false).grouper.names key ≠ [])
  ∧ (∃ key, key ∈ (filter_grouped gEx condEx true).grouper.keys ∧
      groupRowIdxs (filter_grouped gEx condEx true).obj
        (filter_grouped gEx condEx true).grouper.names key = []) := by
  constructor
  · intro g cond key hk
    exact mem_computeGrouper_nonempty _ _ _ hk
  · exact ⟨[2], by decide, by decide⟩

/-- Witness for C4 at the concrete grouped table and condition: the
surviving level `g=1` has rows. -/
theorem filter_preserve_groups_witness :
    groupRowIdxs (filter_grouped gEx condEx false).obj
      (filter_grouped gEx condEx false).grouper.names [1] ≠ [] :=
  filter_preserve_groups.1 gEx condEx [1] (by decide)

/-- Claim C5: for every `Inverted` built outside the slice-preserving
context, `complements` equals the set difference between the table's columns
and the resolved elements, and is computed at most once: mutating the
table's columns after the first access does not change later accesses. -/
theorem inverted_complements_cached (cols elems : List String) :
    (complementsAccess (inverted_init cols elems false)).1 = some (list_diff cols elems)
  ∧ (∀ x, x ∈ list_diff cols elems ↔ (x ∈ cols ∧ x ∉ elems))
  ∧ (∀ cols2,
      (complementsAccess (setDataCols
        (complementsAccess (inverted_init cols elems false)).2 cols2)).1
      = some (list_diff cols elems)) := by
  refine ⟨rfl, ?_, fun cols2 => rfl⟩
  intro x
  simp [list_diff, List.mem_filter]

/-- Claim C6: constructing `CAcross` or `IfCross` (`IfAny`/`IfAll`) fails
with a no-function-specified error exactly when zero functions are given,
with a too-many-functions error exactly when more than one is given, and
succeeds exactly when exactly one function is given. -/
theorem single_fn_init_counts (fns : FnsArg) :
    ((∃ f, cacross_init fns = Except.ok f) ↔ (normalizeFns fns).length = 1)
  ∧ (cacross_init fns = Except.error MWError.noFunction ↔ (normalizeFns fns).length = 0)
  ∧ (cacross_init fns = Except.error MWError.tooManyFunctions ↔ 1 < (normalizeFns fns).length)
  ∧ ((∃ f, ifcross_init fns = Except.ok f) ↔ (normalizeFns fns).length = 1)
  ∧ (ifcross_init fns = Except.error MWError.noFunction ↔ (normalizeFns fns).length = 0)
  ∧ (ifcross_init fns = Except.error MWError.tooManyFunctions ↔ 1 < (normalizeFns fns).length) := by
  rcases hl : normalizeFns fns with _ | ⟨a, _ | ⟨b, l⟩⟩ <;>
    simp [cacross_init, ifcross_init, hl]

/-- Claim C7, counterexample: a table with duplicate column names does not
make `arrange` fail when no sort arguments are given — the call returns the
table unchanged instead (verbs.py lines 53-54 return before the uniqueness
check). -/
theorem arrange_dup_names_counterexample :
    (colNames dupTbl).dedup.length ≠ (colNames dupTbl).length
  ∧ arrange dupTbl [] = Except.ok dupTbl :=
  ⟨by decide, rfl⟩

/-- Claim C7, amended: for every table with duplicate column names, `arrange`
called with at least one sort argument fails with the duplicate-column-name
error. -/
theorem arrange_dup_names_error (t : Table) (series : List SortSeries)
    (hs : series ≠ [])
    (hd : (colNames t).dedup.length ≠ (colNames t).length) :
    arrange t series = Except.error "Cannot arrange a data frame with duplicate names." := by
  cases series with
  | nil => exact absurd rfl hs
  | cons a l =>
    simp [arrange, check_unique, hd]

/-- Witness for the amended C7 on the duplicate-name table with one sort
series. -/
theorem arrange_dup_names_error_witness :
    arrange dupTbl [⟨"s", [5, 3], false⟩]
      = Except.error "Cannot arrange a data frame with duplicate names." :=
  arrange_dup_names_error dupTbl _ (List.cons_ne_nil _ _) (by decide)

/-- Claim C8, counterexample: with the per-verb variable set to the empty
string and the global set to `piping`, both variables are set, yet the
lookup returns the global value, not the per-verb one — values are tested
for truthiness, not presence. -/
theorem ast_fallback_empty_set_counterexample :
    envA (verbKey "mutate") = some ""
  ∧ envA globalKey = some "piping"
  ∧ get_verb_ast_fallback envA "mutate" = some "piping"
  ∧ get_verb_ast_fallback envA "mutate" ≠ some "" :=
  ⟨by decide, by decide, by decide, by decide⟩

/-- Claim C8, amended: for every verb, the lookup returns the per-verb
variable's value when it is set to a non-empty string (taking precedence
over the global); the global value when the per-verb variable is unset or
empty and the global is set non-empty; and `none` when both are unset or
empty. -/
theorem ast_fallback_precedence (env : Env) (verb : String) :
    (∀ v, env (verbKey verb) = some v → v ≠ "" →
      get_verb_ast_fallback env verb = some v)
  ∧ ((env (verbKey verb) = none ∨ env (verbKey verb) = some "") →
      ∀ g, env globalKey = some g → g ≠ "" →
        get_verb_ast_fallback env verb = some g)
  ∧ ((env (verbKey verb) = none ∨ env (verbKey verb) = some "") →
      (env globalKey = none ∨ env globalKey = some "") →
        get_verb_ast_fallback env verb = none) := by
  refine ⟨?_, ?_, ?_⟩
  · intro v hv hne
    simp [get_verb_ast_fallback, hv, hne]
  · rintro (h | h) g hg hgne <;>
      simp [get_verb_ast_fallback, h, global_ast_fallback, hg, hgne]
  · rintro (h | h) (h2 | h2) <;>
      simp [get_verb_ast_fallback, h, global_ast_fallback, h2]

/-- Witness for the amended C8: a non-empty per-verb variable wins over the
global. -/
theorem ast_fallback_precedence_witness :
    get_verb_ast_fallback envB "select" = some "normal" :=
  (ast_fallback_precedence envB "select").1 "normal" (by decide) (by decide)

/-- Claim C9: an environment variable set to the empty string is treated as
unset — an empty per-verb variable falls through to the global lookup, and
an empty global variable yields `none`. -/
theorem ast_fallback_empty_as_unset (env : Env) (verb : String) :
    (env (verbKey verb) = some "" →
      get_verb_ast_fallback env verb = global_ast_fallback env)
  ∧ (env globalKey = some "" → global_ast_fallback env = none) := by
  constructor
  · intro h; simp [get_verb_ast_fallback, h]
  · intro h; simp [global_ast_fallback, h]

/-- Witness for C9: the empty per-verb variable of `envA` falls through to
the global, and the empty global of `envEmptyGlobal` yields `none`. -/
theorem ast_fallback_empty_as_unset_witness :
    get_verb_ast_fallback envA "mutate" = global_ast_fallback envA
  ∧ global_ast_fallback envEmptyGlobal = none :=
  ⟨(ast_fallback_empty_as_unset envA "mutate").1 (by decide),
   (ast_fallback_empty_as_unset envEmptyGlobal "x").2 (by decide)⟩

/-- Claim C10: for every table, `arrange` with no sort arguments returns the
input unchanged, performing no duplicate-column-name check — it succeeds
even on tables whose column names are not unique. -/
theorem arrange_no_series_identity (t : Table) : arrange t [] = Except.ok t :=
  rfl

end Datar
